import Mathlib

/-!
Verification of the CareerVue email ingestion pipeline.

Shallow embedding of `src/email_watcher.py` and the watcher-related parts of
`src/home_screen.py`.  Python exceptions are modelled by `PyResult`; the
sqlite `jobs` table is a list of `JobRecord`s together with a surrogate-id
counter; the external classifier (`analyze_email`) is a parameter
`classify : String → ClassifierOutput`.
-/

/-- Outcome of a Python call: a returned value or an uncaught exception. -/
inductive PyResult (α : Type) where
  | val (a : α)
  | raised
deriving DecidableEq, Repr

/-- One MIME part: its declared content type and the result of
`part.get_payload(decode=True).decode(...)` (`none` models a decode that
raises, which `decode_payload` catches and turns into `""`). -/
structure MimePart where
  contentType : String
  payloadDecode : Option String
deriving DecidableEq, Repr

/-- `EmailWatcher.decode_payload`: decoding failure degrades to `""`. -/
def decode_payload (p : MimePart) : String :=
  p.payloadDecode.getD ""

/-- The body structure of a message: `email_message.is_multipart()` decides
which branch of `parse_email` runs; for multipart messages `walk()` visits
the listed parts in order. -/
inductive MessageContent where
  | single (p : MimePart)
  | multipart (parts : List MimePart)
deriving DecidableEq, Repr

/-- A raw mailbox message as seen by `parse_email`.
`subjectDecode` is the result of `decode_header` on the Subject header
(`none` models a decode that raises, caught inside `decode_header` and turned
into `""`).  `dateHeader` is `some d` when the Date header is present and
`email.utils.parsedate_to_datetime` succeeds (with `d` already rendered as
the `%Y-%m-%d` string used downstream); `none` when the header is absent or
unparseable, in which case `parsedate_to_datetime` raises. -/
structure EmailMessage where
  subjectDecode : Option String
  sender : String
  dateHeader : Option String
  content : MessageContent
deriving DecidableEq, Repr

/-- The dictionary returned by a successful `parse_email`. -/
structure EmailData where
  subject : String
  sender : String
  date : String
  body : String
deriving DecidableEq, Repr

/-- `EmailWatcher.parse_email`: date parsing raises for an absent or
unparseable Date header and the surrounding `except` returns `None`; the body
is the first `text/plain` part of a multipart message (empty if there is
none) or the single payload otherwise. -/
def parse_email (m : EmailMessage) : Option EmailData :=
  match m.dateHeader with
  | none => none
  | some d =>
    let subject := m.subjectDecode.getD ""
    let body :=
      match m.content with
      | .multipart ps =>
        match ps.find? (fun p => p.contentType == "text/plain") with
        | some p => decode_payload p
        | none => ""
      | .single p => decode_payload p
    some ⟨subject, m.sender, d, body⟩

/-- The classifier response string, as seen through `json.loads` and the
subsequent field accesses in `interpret_email`:
`unparseable` = `json.loads` raises `JSONDecodeError`;
`badShape` = valid JSON but the `result[...]` accesses raise
(`KeyError`/`TypeError`), which `interpret_email` does not catch;
`verdict` = a well-formed flat record with all expected fields. -/
inductive ClassifierOutput where
  | unparseable
  | badShape
  | verdict (jobRelated : Bool) (company position status note : String)
deriving DecidableEq, Repr

/-- The dictionary `interpret_email` returns for a job-related verdict. -/
structure JobData where
  company : String
  position : String
  status : String
  date : String
  notes : String
deriving DecidableEq, Repr

/-- The email content string passed to `analyze_email`. -/
def email_content (ed : EmailData) : String :=
  "Subject: " ++ ed.subject ++ "\n\n" ++ ed.body

/-- `EmailWatcher.interpret_email` after the `analyze_email` call:
a `JSONDecodeError` is caught, logged and turned into `None`; a response
whose field accesses raise propagates the exception; a well-formed verdict
yields the job dictionary when `job_related` is true and `None` otherwise. -/
def interpret_email (ed : EmailData) (out : ClassifierOutput) :
    PyResult (Option JobData) :=
  match out with
  | .unparseable => .val none
  | .badShape => .raised
  | .verdict jr c p s n =>
    if jr then .val (some ⟨c, p, s, ed.date, n⟩) else .val none

/-- Whether `interpret_email` reaches its `logging.error` line (the
`except json.JSONDecodeError` handler). -/
def interpretLogsError (out : ClassifierOutput) : Bool :=
  match out with
  | .unparseable => true
  | _ => false

/-- One row of the sqlite `jobs` table, with the columns touched by the
watcher (`updated` is the status-transition flag set by `update_database`). -/
structure JobRecord where
  id : Nat
  company : String
  position : String
  status : String
  application_date : String
  last_updated : String
  notes : String
  updated : Bool
deriving DecidableEq, Repr

/-- The `SELECT id, status FROM jobs WHERE company = ? AND position = ?`
lookup (`fetchone` returns the first matching row). -/
def findByKey (jobs : List JobRecord) (c p : String) : Option JobRecord :=
  jobs.find? (fun r => r.company == c && r.position == p)

/-- The `jobs` table plus the surrogate-id counter the store assigns from. -/
structure Db where
  jobs : List JobRecord
  nextId : Nat
deriving DecidableEq, Repr

/-- The committed effect of one successful `EmailWatcher.update_database`
transaction: merge on the (company, position) natural key with the
three-branch algorithm of the source (status changed / status unchanged /
insert). -/
def update_database (db : Db) (jd : JobData) : Db :=
  match findByKey db.jobs jd.company jd.position with
  | some r =>
    if jd.status ≠ r.status then
      { db with jobs := db.jobs.map (fun x => if x.id = r.id then
          { x with status := jd.status, last_updated := jd.date,
                   notes := x.notes ++ "\n\n" ++ jd.notes,
                   updated := true } else x) }
    else
      { db with jobs := db.jobs.map (fun x => if x.id = r.id then
          { x with last_updated := jd.date,
                   notes := x.notes ++ "\n\n" ++ jd.notes } else x) }
  | none =>
    { jobs := db.jobs ++
        [⟨db.nextId, jd.company, jd.position, jd.status, jd.date, jd.date,
          jd.notes, true⟩],
      nextId := db.nextId + 1 }

/-- The column list of the `INSERT INTO jobs (...)` statement in
`update_database`. -/
def update_database_insert_columns : List String :=
  ["company", "position", "status", "application_date", "last_updated",
   "notes", "updated"]

/-- One attempt of the decorated `update_database`, with a failure injection
`fails` standing for `sqlite3.Error`: on failure the `except` handler rolls
the transaction back (so the committed table is unchanged) and re-raises. -/
def update_database_tx (fails : JobData → Bool) (db : Db) (jd : JobData) :
    PyResult Db :=
  if fails jd then .raised else .val (update_database db jd)

/-- `backoff.on_exception(..., max_tries=n)`: retry the body while it raises
the retried exception, up to `n` calls, then let the exception propagate.
Returns the number of calls made together with the final outcome. -/
def backoffRetryAux {α : Type} (body : Nat → PyResult α) :
    Nat → Nat → Nat × PyResult α
  | i, 0 => (i, .raised)
  | i, rem + 1 =>
    match body i with
    | .val a => (i + 1, .val a)
    | .raised =>
      if rem = 0 then (i + 1, .raised) else backoffRetryAux body (i + 1) rem

def backoffRetry {α : Type} (maxTries : Nat) (body : Nat → PyResult α) :
    Nat × PyResult α :=
  backoffRetryAux body 0 maxTries

/-- What one connection attempt of `EmailWatcher.connect` observes from the
server: a successful handshake, or `imaplib.IMAP4.error` raised by
login/select. -/
inductive ServerResponse where
  | ok
  | imap4error
deriving DecidableEq, Repr

/-- The body of `EmailWatcher.connect`: the `try` block returns `True` on
success, and the `except imaplib.IMAP4.error` handler logs and returns
`False` — the exception never escapes the function body. -/
def connectBody (server : Nat → ServerResponse) (attempt : Nat) :
    PyResult Bool :=
  match server attempt with
  | .ok => .val true
  | .imap4error => .val false

/-- `EmailWatcher.connect` as decorated with
`backoff.on_exception(backoff.expo, imaplib.IMAP4.error, max_tries=3)`:
the decorator re-calls the body only when the body raises `IMAP4.error`.
Returns (number of handshake attempts made, final outcome). -/
def connect (server : Nat → ServerResponse) : Nat × PyResult Bool :=
  backoffRetry 3 (connectBody server)

/-- `EmailWatcher.process_email` for one message: parse failure or a
non-job-related interpretation skips the message; a job-related verdict runs
the decorated `update_database` (up to 3 tries, each failed try rolled
back); an uncaught exception propagates to the caller. -/
def process_email (classify : String → ClassifierOutput)
    (fails : JobData → Bool) (db : Db) (m : EmailMessage) : PyResult Db :=
  match parse_email m with
  | none => .val db
  | some ed =>
    match interpret_email ed (classify (email_content ed)) with
    | .raised => .raised
    | .val none => .val db
    | .val (some jd) =>
      match (backoffRetry 3 (fun _ => update_database_tx fails db jd)).2 with
      | .raised => .raised
      | .val db' => .val db'

/-- The message loop of `EmailWatcher.run`: an exception from
`process_email` is caught by `run`'s blanket `except`, which ends the loop —
the remaining messages are not processed and the store keeps its last
committed state. -/
def runMessages (classify : String → ClassifierOutput)
    (fails : JobData → Bool) : List EmailMessage → Db → Db
  | [], db => db
  | m :: ms, db =>
    match process_email classify fails db m with
    | .raised => db
    | .val db' => runMessages classify fails ms db'

/-- The watcher-visible persistent state: the jobs table and the externally
persisted checkpoint (`last_checked.json`, read by
`HomeScreen.update_sync_time`). -/
structure WatcherState where
  db : Db
  checkpoint : Option String
deriving DecidableEq, Repr

/-- `EmailWatcher.run`: when `connect` returns `True` it fetches and
processes the new messages; it performs no write to the persisted
checkpoint anywhere on any path. -/
def run (connected : Bool) (classify : String → ClassifierOutput)
    (fails : JobData → Bool) (mailbox : List EmailMessage)
    (st : WatcherState) : WatcherState :=
  if connected then
    { st with db := runMessages classify fails mailbox st.db }
  else st

/-- No duplicate job records: no two rows share the (company, position)
natural key. -/
def keyOf (r : JobRecord) : String × String :=
  (r.company, r.position)

def noDupKeys (jobs : List JobRecord) : Prop :=
  jobs.Pairwise (fun a b => keyOf a ≠ keyOf b)

instance (jobs : List JobRecord) : Decidable (noDupKeys jobs) := by
  unfold noDupKeys; infer_instance

/-- Attributes set on an `EmailWatcher` instance by `__init__`. -/
def emailWatcherInstanceAttrs : List String :=
  ["connect_attempts", "max_connect_attempts", "email_address", "password",
   "inbox", "imap_server", "mail", "stop_flag"]

/-- Methods defined in the `EmailWatcher` class body. -/
def emailWatcherMethods : List String :=
  ["__init__", "connect", "fetch_new_emails", "parse_email", "decode_header",
   "decode_payload", "interpret_email", "update_database", "process_email",
   "run"]

/-- Python attribute lookup on an `EmailWatcher` instance: instance
dictionary first, then the class body; anywhere else raises
`AttributeError`. -/
def emailWatcherHasAttr (name : String) : Bool :=
  emailWatcherInstanceAttrs.contains name || emailWatcherMethods.contains name

/-- Outcome of one iteration body of `HomeScreen.run_email_watcher`'s `try`
block (`run()` + `update_sync_time()`): it either completes or raises. -/
inductive CycleOutcome where
  | ok
  | err
deriving DecidableEq, Repr

/-- The sleep the loop performs after one iteration: `time.sleep(300)` at the
end of the `try` block, `time.sleep(60)` in the `except` handler. -/
def sleepAfter : CycleOutcome → Nat
  | .ok => 300
  | .err => 60

/-- `HomeScreen.run_email_watcher`, observed as the trace of sleep intervals:
`while not stop_flag` re-checks the flag each iteration, runs the body, and
sleeps 300 s on success or 60 s on an uncaught failure; the `except Exception`
handler means no cycle failure leaves the loop.  `fuel` bounds the observed
prefix of the (otherwise unbounded) loop. -/
def run_email_watcher (stopFlag : Nat → Bool) (cycle : Nat → CycleOutcome) :
    Nat → Nat → List Nat
  | _, 0 => []
  | i, fuel + 1 =>
    if stopFlag i then []
    else sleepAfter (cycle i) :: run_email_watcher stopFlag cycle (i + 1) fuel

/-- A fixed classifier used in concrete runs: every email is classified as a
job-related application to Acme. -/
def classifyAcme : String → ClassifierOutput :=
  fun _ => .verdict true "Acme" "Eng" "Applied" "note"

/-- A store that never raises `sqlite3.Error`. -/
def noStoreFail : JobData → Bool := fun _ => false

/-- A concrete single-part plain-text message with a parseable Date. -/
def acmeMsg : EmailMessage :=
  ⟨some "Your application to Acme", "hr@acme.com", some "2024-01-02",
   .single ⟨"text/plain", some "We received your application"⟩⟩

/-- A concrete initial state: empty jobs table, checkpoint from the previous
day. -/
def emptyState : WatcherState := ⟨⟨[], 1⟩, some "2024-01-01"⟩

/-- A concrete multipart message with only an HTML part and no Date header. -/
def htmlOnlyNoDateMsg : EmailMessage :=
  ⟨some "s", "a@b", none, .multipart [⟨"text/html", some "<p>x</p>"⟩]⟩

/-- Claim C3 (counterexample): the pipeline's outcome for an unparseable
classifier response is the very same value (`None`) as for a well-formed
not-job-related verdict — `interpret_email` does not distinguish them in its
result, refuting "for every classifier output, the pipeline's outcome
distinguishes these two cases". -/
theorem interpret_email_conflates_outcomes :
    interpret_email ⟨"s", "a@b", "2024-01-02", "b"⟩ .unparseable =
      interpret_email ⟨"s", "a@b", "2024-01-02", "b"⟩
        (.verdict false "Acme" "Eng" "Applied" "note") := rfl

/-- Claim C3 (amended): a classifier response that raises a JSON decode
error is skipped with the failure logged, but it yields the same outcome
value `None` as a well-formed not-job-related verdict; the two cases are
distinguished only by the error log, not by the returned outcome. -/
theorem interpret_email_skip_and_log (ed : EmailData) (c p s n : String) :
    interpret_email ed .unparseable = .val none ∧
    interpret_email ed (.verdict false c p s n) = .val none ∧
    interpretLogsError .unparseable = true ∧
    interpretLogsError (.verdict false c p s n) = false :=
  ⟨rfl, rfl, rfl, rfl⟩

/-- Claim C4: `EmailWatcher.run` (the whole poll cycle) never writes the
persisted checkpoint, on any path — contradicting "after every successful
poll cycle, the persisted checkpoint equals the cycle's start time" and
"the checkpoint is written exactly once per cycle". -/
theorem run_never_writes_checkpoint (connected : Bool)
    (classify : String → ClassifierOutput) (fails : JobData → Bool)
    (mailbox : List EmailMessage) (st : WatcherState) :
    (run connected classify fails mailbox st).checkpoint = st.checkpoint := by
  cases connected <;> simp [run]

/-- Claim C5: `HomeScreen.delete_job` calls
`self.email_watcher.remove_processed_hash(...)`, but `EmailWatcher` defines
no such attribute or method (the call raises `AttributeError`), and the
`INSERT` in `update_database` never writes the `email_hash` column — so no
dedup-cache eviction round-trip exists in the code. -/
theorem remove_processed_hash_undefined :
    emailWatcherHasAttr "remove_processed_hash" = false ∧
    "email_hash" ∉ update_database_insert_columns := by decide

/-- Claim C6: `connect` catches `imaplib.IMAP4.error` inside its own body
and returns `False`, so the `backoff.on_exception(..., max_tries=3)`
decorator never observes the exception: exactly one handshake attempt is
made for every server behaviour, and a server that always fails yields
`False` after that single attempt — not 3 attempts with exponential
backoff. -/
theorem connect_makes_single_attempt :
    (∀ server : Nat → ServerResponse, (connect server).1 = 1) ∧
    connect (fun _ => .imap4error) = (1, .val false) := by
  refine ⟨fun server => ?_, rfl⟩
  cases h : server 0 <;>
    simp [connect, backoffRetry, backoffRetryAux, connectBody, h]

/-- Claim C9 (counterexample): a multipart message whose only part is HTML
but whose Date header is absent does not decode to an empty-body message —
`parse_email` fails and returns `None`, refuting the claim for "every"
multipart message without a plain-text part. -/
theorem parse_email_html_only_no_date_fails :
    parse_email htmlOnlyNoDateMsg = none := rfl

/-- Claim C9 (amended): for every multipart message whose Date header is
present and parseable, if no part's declared content type is `text/plain`
the message decodes successfully with an empty body, and if some part is
`text/plain` the first such part becomes the body. -/
theorem parse_email_multipart_body (sd : Option String) (snd d : String)
    (ps : List MimePart) :
    (ps.find? (fun p => p.contentType == "text/plain") = none →
      parse_email ⟨sd, snd, some d, .multipart ps⟩ =
        some ⟨sd.getD "", snd, d, ""⟩) ∧
    (∀ p, ps.find? (fun p => p.contentType == "text/plain") = some p →
      parse_email ⟨sd, snd, some d, .multipart ps⟩ =
        some ⟨sd.getD "", snd, d, decode_payload p⟩) := by
  constructor
  · intro h; simp [parse_email, h]
  · intro p h; simp [parse_email, h]

/-- Witness for the amended C9 at concrete messages: an HTML-only multipart
message with a Date decodes to an empty body; adding a `text/plain` part
makes that part the body. -/
theorem parse_email_multipart_body_witness :
    parse_email ⟨some "s", "a@b", some "2024-01-02",
        .multipart [⟨"text/html", some "<p>x</p>"⟩]⟩ =
      some ⟨"s", "a@b", "2024-01-02", ""⟩ ∧
    parse_email ⟨some "s", "a@b", some "2024-01-02",
        .multipart [⟨"text/html", some "<p>x</p>"⟩,
                    ⟨"text/plain", some "hello"⟩]⟩ =
      some ⟨"s", "a@b", "2024-01-02", "hello"⟩ :=
  ⟨(parse_email_multipart_body (some "s") "a@b" "2024-01-02"
      [⟨"text/html", some "<p>x</p>"⟩]).1 (by decide),
   (parse_email_multipart_body (some "s") "a@b" "2024-01-02"
      [⟨"text/html", some "<p>x</p>"⟩, ⟨"text/plain", some "hello"⟩]).2
      ⟨"text/plain", some "hello"⟩ (by decide)⟩

/-- Claim C10: a message whose Date header is absent (or unparseable) fails
message-level decoding — `parse_email` returns `None` and `process_email`
skips it, leaving the store untouched — and decoding succeeds exactly when
the Date header is present and parseable. -/
theorem parse_email_requires_date (m : EmailMessage)
    (classify : String → ClassifierOutput) (fails : JobData → Bool)
    (db : Db) :
    (m.dateHeader = none →
      parse_email m = none ∧ process_email classify fails db m = .val db) ∧
    ((parse_email m).isSome ↔ m.dateHeader.isSome) := by
  constructor
  · intro h
    refine ⟨by simp [parse_email, h], by simp [process_email, parse_email, h]⟩
  · cases hd : m.dateHeader <;> simp [parse_email, hd]

/-- Witness for C10: a concrete message with decodable subject, sender and
plain-text body but no Date header is rejected by `parse_email` and skipped
by `process_email`. -/
theorem parse_email_requires_date_witness :
    parse_email ⟨some "s", "a@b", none, .single ⟨"text/plain", some "x"⟩⟩ =
      none ∧
    process_email classifyAcme noStoreFail ⟨[], 1⟩
      ⟨some "s", "a@b", none, .single ⟨"text/plain", some "x"⟩⟩ =
      .val ⟨[], 1⟩ :=
  (parse_email_requires_date
    ⟨some "s", "a@b", none, .single ⟨"text/plain", some "x"⟩⟩
    classifyAcme noStoreFail ⟨[], 1⟩).1 rfl

/-- Claim C1: the store upsert keyed by (company, position) follows the
three-branch merge: on an existing record with a different status, the
status becomes `verdict.status`, `last_updated` becomes the observed date,
the note is appended and the record is marked `updated`; on an existing
record with the same status, only `last_updated` and the notes trail change;
with no existing record, a fresh record is inserted with
`application_date = last_updated =` observed date and `notes` = the note. -/
theorem update_database_three_branch (db : Db) (jd : JobData)
    (r : JobRecord) :
    (findByKey db.jobs jd.company jd.position = some r →
      (jd.status ≠ r.status →
        ({ r with status := jd.status, last_updated := jd.date,
                  notes := r.notes ++ "\n\n" ++ jd.notes,
                  updated := true } : JobRecord)
          ∈ (update_database db jd).jobs) ∧
      (jd.status = r.status →
        ({ r with last_updated := jd.date,
                  notes := r.notes ++ "\n\n" ++ jd.notes } : JobRecord)
          ∈ (update_database db jd).jobs)) ∧
    (findByKey db.jobs jd.company jd.position = none →
      (update_database db jd).jobs = db.jobs ++
        [⟨db.nextId, jd.company, jd.position, jd.status, jd.date, jd.date,
          jd.notes, true⟩]) := by
  constructor
  · intro h
    have hmem : r ∈ db.jobs := List.mem_of_find?_eq_some h
    constructor
    · intro hst
      unfold update_database
      rw [h]; dsimp only
      rw [if_pos hst]
      exact List.mem_map.mpr ⟨r, hmem, by simp⟩
    · intro hst
      unfold update_database
      rw [h]; dsimp only
      rw [if_neg (fun hc => hc hst)]
      exact List.mem_map.mpr ⟨r, hmem, by simp⟩
  · intro h
    unfold update_database
    rw [h]

/-- Witness for C1: on a concrete store holding an "Applied" record for
(Acme, Eng), a verdict with status "Interview" produces the status-changed
merge result. -/
theorem update_database_three_branch_witness :
    ({ id := 1, company := "Acme", position := "Eng", status := "Interview",
       application_date := "2024-01-01", last_updated := "2024-01-02",
       notes := "n0\n\nn1", updated := true } : JobRecord) ∈
      (update_database
        ⟨[⟨1, "Acme", "Eng", "Applied", "2024-01-01", "2024-01-01", "n0",
           false⟩], 2⟩
        ⟨"Acme", "Eng", "Interview", "2024-01-02", "n1"⟩).jobs :=
  ((update_database_three_branch
      ⟨[⟨1, "Acme", "Eng", "Applied", "2024-01-01", "2024-01-01", "n0",
         false⟩], 2⟩
      ⟨"Acme", "Eng", "Interview", "2024-01-02", "n1"⟩
      ⟨1, "Acme", "Eng", "Applied", "2024-01-01", "2024-01-01", "n0",
       false⟩).1 (by decide)).1 (by decide)

/-- Claim C7: a store failure during merge/insert leaves the committed table
unchanged (the transaction is rolled back and the error re-raised), and the
raised error makes the cycle abort: the run returns the state it started
with — remaining messages unprocessed and the checkpoint not advanced. -/
theorem store_failure_aborts_cycle (classify : String → ClassifierOutput)
    (fails : JobData → Bool) (st : WatcherState) (m : EmailMessage)
    (ms : List EmailMessage) (ed : EmailData) (c p s n : String)
    (hparse : parse_email m = some ed)
    (hclass : classify (email_content ed) = .verdict true c p s n)
    (hfail : fails ⟨c, p, s, ed.date, n⟩ = true) :
    update_database_tx fails st.db ⟨c, p, s, ed.date, n⟩ = .raised ∧
    process_email classify fails st.db m = .raised ∧
    run true classify fails (m :: ms) st = st := by
  have htx : update_database_tx fails st.db ⟨c, p, s, ed.date, n⟩ =
      .raised := by
    simp [update_database_tx, hfail]
  have hproc : process_email classify fails st.db m = .raised := by
    simp [process_email, hparse, hclass, interpret_email, backoffRetry,
      backoffRetryAux, htx]
  refine ⟨htx, hproc, ?_⟩
  simp [run, runMessages, hproc]

/-- Witness for C7: with a classifier that accepts every message and a store
that always raises, a one-message cycle returns the initial state
unchanged. -/
theorem store_failure_aborts_cycle_witness :
    run true classifyAcme (fun _ => true) [acmeMsg] emptyState =
      emptyState :=
  (store_failure_aborts_cycle classifyAcme (fun _ => true) emptyState
    acmeMsg [] ⟨"Your application to Acme", "hr@acme.com", "2024-01-02",
      "We received your application"⟩
    "Acme" "Eng" "Applied" "note" rfl rfl rfl).2.2

lemma run_email_watcher_noStop_length (cycle : Nat → CycleOutcome) :
    ∀ (fuel j : Nat),
      (run_email_watcher (fun _ => false) cycle j fuel).length = fuel
  | 0, _ => rfl
  | fuel + 1, j => by
    simp [run_email_watcher, run_email_watcher_noStop_length cycle fuel (j + 1)]

lemma run_email_watcher_noStop_get (cycle : Nat → CycleOutcome) :
    ∀ (fuel j i : Nat),
      (run_email_watcher (fun _ => false) cycle j fuel).get? i =
        if i < fuel then some (sleepAfter (cycle (j + i))) else none
  | 0, _, i => by simp [run_email_watcher]
  | fuel + 1, j, 0 => by simp [run_email_watcher]
  | fuel + 1, j, i + 1 => by
    have h := run_email_watcher_noStop_get cycle fuel (j + 1) i
    have hj : j + 1 + i = j + (i + 1) := by omega
    simp only [run_email_watcher, Bool.false_eq_true, if_false,
      List.get?_cons_succ, h, hj, Nat.succ_lt_succ_iff]

/-- Claim C8: with the stop flag never set, the poller loop
`HomeScreen.run_email_watcher` runs one cycle per iteration for the entire
observed window — a cycle failure never terminates the loop — and the sleep
after each iteration is 300 s (5 min) when the cycle body completed and 60 s
(1 min) when it raised. -/
theorem run_email_watcher_two_interval_policy (cycle : Nat → CycleOutcome)
    (fuel i : Nat) :
    (run_email_watcher (fun _ => false) cycle 0 fuel).length = fuel ∧
    (run_email_watcher (fun _ => false) cycle 0 fuel).get? i =
      (if i < fuel then some (sleepAfter (cycle i)) else none) ∧
    sleepAfter .ok = 300 ∧ sleepAfter .err = 60 := by
  refine ⟨run_email_watcher_noStop_length cycle fuel 0, ?_, rfl, rfl⟩
  simpa using run_email_watcher_noStop_get cycle fuel 0 i

lemma backoffRetry_tx_spec (fails : JobData → Bool) (db : Db) (jd : JobData) :
    (backoffRetry 3 (fun _ => update_database_tx fails db jd)).2 =
      if fails jd then .raised else .val (update_database db jd) := by
  by_cases hf : fails jd <;>
    simp [backoffRetry, backoffRetryAux, update_database_tx, hf]

lemma noDupKeys_map_of_keyOf_eq (f : JobRecord → JobRecord)
    (hf : ∀ x, keyOf (f x) = keyOf x) {jobs : List JobRecord}
    (h : noDupKeys jobs) : noDupKeys (jobs.map f) := by
  unfold noDupKeys at *
  rw [List.pairwise_map]
  exact h.imp (fun {a b} hab => by rw [hf a, hf b]; exact hab)

lemma update_database_preserves_noDupKeys (db : Db) (jd : JobData)
    (h : noDupKeys db.jobs) : noDupKeys (update_database db jd).jobs := by
  unfold update_database
  cases hf : findByKey db.jobs jd.company jd.position with
  | some r =>
    dsimp only
    split
    · exact noDupKeys_map_of_keyOf_eq _
        (fun x => by by_cases hx : x.id = r.id <;> simp [keyOf, hx]) h
    · exact noDupKeys_map_of_keyOf_eq _
        (fun x => by by_cases hx : x.id = r.id <;> simp [keyOf, hx]) h
  | none =>
    have hf' : ∀ a ∈ db.jobs,
        a.company = jd.company → ¬a.position = jd.position := by
      simpa [findByKey] using hf
    dsimp only
    unfold noDupKeys
    rw [List.pairwise_append]
    refine ⟨h, by simp, ?_⟩
    intro a ha b hb
    rw [List.mem_singleton] at hb
    subst hb
    simp only [keyOf, ne_eq, Prod.mk.injEq, not_and]
    exact fun h1 => hf' a ha h1

lemma process_email_eq (classify : String → ClassifierOutput)
    (fails : JobData → Bool) (db : Db) (m : EmailMessage) :
    process_email classify fails db m = .val db ∨
    (∃ jd, process_email classify fails db m =
      .val (update_database db jd)) ∨
    process_email classify fails db m = .raised := by
  unfold process_email
  cases parse_email m with
  | none => exact Or.inl rfl
  | some ed =>
    dsimp only
    cases interpret_email ed (classify (email_content ed)) with
    | raised => exact Or.inr (Or.inr rfl)
    | val o =>
      cases o with
      | none => exact Or.inl rfl
      | some jd =>
        dsimp only
        rw [backoffRetry_tx_spec]
        by_cases hf : fails jd
        · rw [if_pos hf]; exact Or.inr (Or.inr rfl)
        · rw [if_neg hf]; exact Or.inr (Or.inl ⟨jd, rfl⟩)

lemma runMessages_noDup (classify : String → ClassifierOutput)
    (fails : JobData → Bool) (ms : List EmailMessage) :
    ∀ db : Db, noDupKeys db.jobs →
      noDupKeys (runMessages classify fails ms db).jobs := by
  induction ms with
  | nil => exact fun _ h => h
  | cons m ms ih =>
    intro db h
    unfold runMessages
    cases hp : process_email classify fails db m with
    | raised => exact h
    | val db' =>
      dsimp only
      apply ih
      rcases process_email_eq classify fails db m with h0 | ⟨jd, h1⟩ | h2
      · rw [hp] at h0
        injection h0 with h0
        rw [h0]; exact h
      · rw [hp] at h1
        injection h1 with h1
        rw [h1]; exact update_database_preserves_noDupKeys db jd h
      · rw [hp] at h2; exact absurd h2 (by simp)

lemma run_noDup (connected : Bool) (classify : String → ClassifierOutput)
    (fails : JobData → Bool) (mailbox : List EmailMessage)
    (st : WatcherState) (h : noDupKeys st.db.jobs) :
    noDupKeys (run connected classify fails mailbox st).db.jobs := by
  unfold run
  split
  · exact runMessages_noDup classify fails mailbox st.db h
  · exact h

/-- Claim C2 (counterexample): the second identical cycle is not skipped by
any dedup-cache hash match — it re-classifies the already-ingested message
and mutates its record again (the note is appended a second time and
`last_updated` rewritten), so the resulting state differs from the state
after the first cycle. -/
theorem second_cycle_reingests_message :
    run true classifyAcme noStoreFail [acmeMsg]
        (run true classifyAcme noStoreFail [acmeMsg] emptyState) ≠
      run true classifyAcme noStoreFail [acmeMsg] emptyState := by decide

/-- Claim C2 (amended): running the cycle twice on an unchanged mailbox with
an unchanged checkpoint creates no duplicate job records — if the store has
no two records sharing a (company, position) key, it still has none after
one and after two identical cycles; the deduplication comes from the keyed
upsert in `update_database`, not from any message-hash cache. -/
theorem run_twice_noDupKeys (classify : String → ClassifierOutput)
    (fails : JobData → Bool) (mailbox : List EmailMessage)
    (st : WatcherState) (h : noDupKeys st.db.jobs) :
    noDupKeys ((run true classify fails mailbox st).db.jobs) ∧
    noDupKeys ((run true classify fails mailbox
      (run true classify fails mailbox st)).db.jobs) :=
  ⟨run_noDup true classify fails mailbox st h,
   run_noDup true classify fails mailbox _
     (run_noDup true classify fails mailbox st h)⟩

/-- Witness for the amended C2: two identical concrete cycles over a
one-message mailbox starting from an empty store leave no duplicate
(company, position) keys. -/
theorem run_twice_noDupKeys_witness :
    noDupKeys ((run true classifyAcme noStoreFail [acmeMsg]
      (run true classifyAcme noStoreFail [acmeMsg] emptyState)).db.jobs) :=
  (run_twice_noDupKeys classifyAcme noStoreFail [acmeMsg] emptyState
    (by decide)).2
